import Mathlib

/-!
Verification of the BusTracker feed-to-GeoJSON pipeline (src/app.py).

The embedding models, from the source:
  - the subset of the GTFS-realtime (proto2) data model the code reads,
    with explicit optionality for every field the code guards via HasField
    and proto2 default values (0 / 0.0) for unguarded scalar access;
  - fetch_and_convert_to_geojson (app.py lines 20-60): the fetch outcome is
    an explicit input (transport failure, or a response with status and
    body), the protobuf ParseFromString decoder is a parameter, and the
    Python exception flow is explicit: only requests RequestException is
    caught, a protobuf decode error propagates (Except);
  - get_geojson_data (app.py lines 62-82): the bus query parameter, the
    snapshot write with json.dump indent 4, and the 200 response;
  - the snapshot file as a map from path to content, each write a full
    overwrite.
Floats carried by the feed (latitude, longitude, bearing) undergo no
arithmetic in the code; they are modelled as exact rationals.
-/

namespace BusTracker

/-! ## Data model: decoded feed message (gtfs_realtime_pb2 subset, proto2) -/

/-- Position sub-record: latitude and longitude are required fields in the
wire schema; bearing is optional, read unguarded with proto2 default 0.0. -/
structure Position where
  latitude : Rat
  longitude : Rat
  bearing : Option Rat
  deriving DecidableEq

/-- TripDescriptor sub-record: route_id is optional (HasField-guarded). -/
structure TripDescriptor where
  route_id : Option String
  deriving DecidableEq

/-- VehicleDescriptor sub-record: id is optional (HasField-guarded). -/
structure VehicleDescriptor where
  id : Option String
  deriving DecidableEq

/-- The vehicle field of a feed entity (VehiclePosition): carries optional
descriptor, trip and position sub-messages, each HasField-guarded. -/
structure VehiclePosition where
  vehicle : Option VehicleDescriptor
  trip : Option TripDescriptor
  position : Option Position
  deriving DecidableEq

/-- One entity of the feed: id is a required string; vehicle is optional. -/
structure FeedEntity where
  id : String
  vehicle : Option VehiclePosition
  deriving DecidableEq

/-- Feed header: timestamp is optional uint64, read unguarded with proto2
default 0. -/
structure FeedHeader where
  timestamp : Option Nat
  deriving DecidableEq

/-- Decoded FeedMessage: header plus ordered entities. -/
structure FeedMessage where
  header : FeedHeader
  entity : List FeedEntity
  deriving DecidableEq

/-! ## Data model: GeoJSON output (the dicts built at app.py lines 45-60) -/

/-- The properties dict of one feature (app.py lines 47-52). -/
structure FeatureProperties where
  id : String
  route_id : String
  bearing : Rat
  timestamp : Nat
  deriving DecidableEq

/-- The geometry dict of one feature (app.py lines 53-56). -/
structure Geometry where
  type : String
  coordinates : List Rat
  deriving DecidableEq

/-- One GeoJSON feature dict (app.py lines 45-57). -/
structure Feature where
  type : String
  properties : FeatureProperties
  geometry : Geometry
  deriving DecidableEq

/-- The FeatureCollection dict returned by the function (lines 32 and 60). -/
structure FeatureCollection where
  type : String
  features : List Feature
  deriving DecidableEq

/-- The empty collection returned in the except branch (app.py line 32). -/
def empty_feature_collection : FeatureCollection :=
  { type := "FeatureCollection", features := [] }

/-! ## The transformation loop (app.py lines 34-60) -/

/-- app.py line 40: vehicle.vehicle.id if vehicle.HasField(vehicle) and
vehicle.vehicle.HasField(id) else entity.id. -/
def bus_id_of (entity : FeedEntity) (vehicle : VehiclePosition) : String :=
  match vehicle.vehicle with
  | some d =>
    match d.id with
    | some i => i
    | none => entity.id
  | none => entity.id

/-- app.py line 41: vehicle.trip.route_id if vehicle.HasField(trip) and
vehicle.trip.HasField(route_id) else the N/A sentinel. -/
def route_id_of (vehicle : VehiclePosition) : String :=
  match vehicle.trip with
  | some t =>
    match t.route_id with
    | some r => r
    | none => "N/A"
  | none => "N/A"

/-- app.py line 44: target_bus_id is None or bus_id == target_bus_id or
route_id == target_bus_id (short-circuit or). -/
def passesFilter (target_bus_id : Option String) (bus_id route_id : String) : Bool :=
  match target_bus_id with
  | none => true
  | some t => bus_id == t || route_id == t

/-- The feature dict built at app.py lines 45-57; bearing and the shared
timestamp are proto2 unguarded reads (defaults applied by the caller). -/
def makeFeature (ts : Nat) (entity : FeedEntity) (vehicle : VehiclePosition)
    (pos : Position) : Feature :=
  { type := "Feature"
    properties :=
      { id := bus_id_of entity vehicle
        route_id := route_id_of vehicle
        bearing := pos.bearing.getD 0
        timestamp := ts }
    geometry :=
      { type := "Point"
        coordinates := [pos.longitude, pos.latitude] } }

/-- One iteration of the loop at app.py lines 35-58: the entity contributes
a feature exactly when it has a vehicle with a position and passes the
filter. -/
def entityFeature (ts : Nat) (target_bus_id : Option String)
    (entity : FeedEntity) : Option Feature :=
  match entity.vehicle with
  | none => none
  | some v =>
    match v.position with
    | none => none
    | some pos =>
      if passesFilter target_bus_id (bus_id_of entity v) (route_id_of v)
      then some (makeFeature ts entity v pos)
      else none

/-- app.py lines 34-60: the whole loop over feed.entity, in order, with the
shared header timestamp (proto2 default 0 when unset). -/
def convert_feed (feed : FeedMessage) (target_bus_id : Option String) :
    FeatureCollection :=
  { type := "FeatureCollection"
    features :=
      feed.entity.filterMap
        (entityFeature (feed.header.timestamp.getD 0) target_bus_id) }

/-! ## Fetch and exception flow (app.py lines 20-32) -/

/-- Outcome of requests.get at app.py line 27: either a RequestException is
raised during transport (timeout, connection error), or a response with a
status code and a body arrives. -/
inductive FetchResult where
  | requestException
  | response (status : Nat) (content : List Nat)
  deriving DecidableEq

/-- An exception that escapes fetch_and_convert_to_geojson. The only one
possible is the protobuf DecodeError from ParseFromString (line 29), which
is not a requests RequestException and so is not caught at line 30. -/
inductive PyError where
  | decodeError
  deriving DecidableEq

/-- response.raise_for_status (app.py line 28) raises HTTPError, a
RequestException subclass, exactly for client and server error statuses. -/
def status_raises (status : Nat) : Bool :=
  400 ≤ status && status < 600

/-- app.py lines 20-32 and 34-60. The decoder (ParseFromString) is a
parameter returning either a decoded message or a decode failure. Transport
failures and error statuses are caught at line 30 and yield the empty
collection; a decode failure is not a RequestException and propagates. -/
def fetch_and_convert_to_geojson
    (decode : List Nat → Except Unit FeedMessage)
    (fetch : FetchResult)
    (target_bus_id : Option String) : Except PyError FeatureCollection :=
  match fetch with
  | .requestException => .ok empty_feature_collection
  | .response status content =>
    if status_raises status then .ok empty_feature_collection
    else
      match decode content with
      | .error _ => .error .decodeError
      | .ok feed => .ok (convert_feed feed target_bus_id)

/-! ## Snapshot persistence (app.py lines 11-18 and 72-80) -/

def DATA_FOLDER : String := "data"

def GEOJSON_FILENAME : String := "bus_positions.geojson"

/-- os.path.join(DATA_FOLDER, GEOJSON_FILENAME) at app.py line 73. -/
def snapshot_path : String := DATA_FOLDER ++ "/" ++ GEOJSON_FILENAME

/-- Indentation produced by json.dump with indent=4 at nesting level n. -/
def pad (n : Nat) : String := String.mk (List.replicate (4 * n) ' ')

/-- A JSON string literal; the strings the code emits need no escaping. -/
def jstr (s : String) : String := "\"" ++ s ++ "\""

/-- Text of a JSON number for a feed rational. Whole values print with a
trailing .0 as Python prints floats; non-integral values are rendered
exactly (an abstraction of the Python float repr, which is itself a fixed
deterministic rendering). -/
def jrat (q : Rat) : String :=
  if q.den = 1 then toString q.num ++ ".0"
  else toString q.num ++ "/" ++ toString q.den

/-- json.dump indent=4 rendering of the coordinates array. -/
def renderCoordinates (lv : Nat) (xs : List Rat) : String :=
  match xs with
  | [] => "[]"
  | _ =>
    "[\n" ++ String.intercalate ",\n" (xs.map (fun q => pad (lv + 1) ++ jrat q))
    ++ "\n" ++ pad lv ++ "]"

/-- json.dump indent=4 rendering of the geometry dict, keys in insertion
order as built at app.py lines 53-56. -/
def renderGeometry (lv : Nat) (g : Geometry) : String :=
  "\x7b\n"
  ++ pad (lv + 1) ++ jstr "type" ++ ": " ++ jstr g.type ++ ",\n"
  ++ pad (lv + 1) ++ jstr "coordinates" ++ ": "
  ++ renderCoordinates (lv + 1) g.coordinates ++ "\n"
  ++ pad lv ++ "\x7d"

/-- json.dump indent=4 rendering of the properties dict, keys in insertion
order as built at app.py lines 47-52. -/
def renderProperties (lv : Nat) (p : FeatureProperties) : String :=
  "\x7b\n"
  ++ pad (lv + 1) ++ jstr "id" ++ ": " ++ jstr p.id ++ ",\n"
  ++ pad (lv + 1) ++ jstr "route_id" ++ ": " ++ jstr p.route_id ++ ",\n"
  ++ pad (lv + 1) ++ jstr "bearing" ++ ": " ++ jrat p.bearing ++ ",\n"
  ++ pad (lv + 1) ++ jstr "timestamp" ++ ": " ++ toString p.timestamp ++ "\n"
  ++ pad lv ++ "\x7d"

/-- json.dump indent=4 rendering of one feature dict. -/
def renderFeature (lv : Nat) (f : Feature) : String :=
  "\x7b\n"
  ++ pad (lv + 1) ++ jstr "type" ++ ": " ++ jstr f.type ++ ",\n"
  ++ pad (lv + 1) ++ jstr "properties" ++ ": "
  ++ renderProperties (lv + 1) f.properties ++ ",\n"
  ++ pad (lv + 1) ++ jstr "geometry" ++ ": "
  ++ renderGeometry (lv + 1) f.geometry ++ "\n"
  ++ pad lv ++ "\x7d"

/-- json.dump indent=4 rendering of the features array. -/
def renderFeatures (lv : Nat) (fs : List Feature) : String :=
  match fs with
  | [] => "[]"
  | _ =>
    "[\n"
    ++ String.intercalate ",\n"
        (fs.map (fun f => pad (lv + 1) ++ renderFeature (lv + 1) f))
    ++ "\n" ++ pad lv ++ "]"

/-- json.dump(geojson_data, f, indent=4) at app.py line 76: the serialized
text written to the snapshot file, a pure function of the collection. -/
def json_dump (g : FeatureCollection) : String :=
  "\x7b\n"
  ++ pad 1 ++ jstr "type" ++ ": " ++ jstr g.type ++ ",\n"
  ++ pad 1 ++ jstr "features" ++ ": " ++ renderFeatures 1 g.features ++ "\n"
  ++ "\x7d"

/-- The snapshot store: content by path. -/
def FileStore : Type := String → Option String

/-- open(file_path, w) followed by a full write: an overwrite of the single
path, independent of prior content (app.py lines 75-76). -/
def write_file (fs : FileStore) (path content : String) : FileStore :=
  fun p => if p = path then some content else fs p

/-- The snapshot-write step of get_geojson_data (app.py lines 73-77). -/
def save_geojson (fs : FileStore) (geojson_data : FeatureCollection) : FileStore :=
  write_file fs snapshot_path (json_dump geojson_data)

/-! ## The endpoint (app.py lines 62-82) -/

/-- request.args.get(key, None): first value bound to the key in the query
string, None when the key is absent. A parameter present with an empty
value, as in a query string bus=, is the empty string, not None. -/
def args_get (args : List (String × String)) (key : String) : Option String :=
  match args.find? (fun kv => kv.fst == key) with
  | some kv => some kv.snd
  | none => none

/-- The HTTP response of the endpoint: jsonify(geojson_data), 200,
Content-Type application/json (app.py line 82). -/
structure HttpResponse where
  body : FeatureCollection
  status : Nat
  contentType : String
  deriving DecidableEq

/-- app.py lines 62-82: read the bus parameter, fetch and convert, save the
snapshot (write failure handling not modelled: the store write always
succeeds here), and answer 200 with the collection. An exception escaping
fetch_and_convert_to_geojson propagates out of the endpoint too. -/
def get_geojson_data
    (decode : List Nat → Except Unit FeedMessage)
    (fetch : FetchResult)
    (args : List (String × String))
    (fs : FileStore) : Except PyError (HttpResponse × FileStore) :=
  let target_bus := args_get args "bus"
  match fetch_and_convert_to_geojson decode fetch target_bus with
  | .error e => .error e
  | .ok geojson_data =>
    .ok ({ body := geojson_data, status := 200, contentType := "application/json" },
         save_geojson fs geojson_data)

/-! ## Helper notions and lemmas -/

/-- An entity is eligible for output exactly when it carries a vehicle with
a position (the two HasField guards at app.py lines 36 and 38). -/
def entityHasPosition (e : FeedEntity) : Bool :=
  match e.vehicle with
  | some v => v.position.isSome
  | none => false

lemma entityFeature_none_of_no_position (ts : Nat) (target : Option String)
    (e : FeedEntity) (h : entityHasPosition e = false) :
    entityFeature ts target e = none := by
  obtain ⟨eid, ev⟩ := e
  cases ev with
  | none => rfl
  | some v =>
    obtain ⟨vd, vt, vp⟩ := v
    cases vp with
    | none => rfl
    | some pos => simp [entityHasPosition] at h

/-- Pointwise form of the filter equivalence: applying the loop body with a
set criterion is the same as applying it with no criterion and then testing
the emitted feature against the criterion. -/
lemma entityFeature_some_eq (ts : Nat) (t : String) (e : FeedEntity) :
    entityFeature ts (some t) e =
      (entityFeature ts none e).bind
        (fun f =>
          if f.properties.id == t || f.properties.route_id == t then some f else none) := by
  obtain ⟨eid, ev⟩ := e
  cases ev with
  | none => rfl
  | some v =>
    obtain ⟨vd, vt, vp⟩ := v
    cases vp with
    | none => rfl
    | some pos => rfl

lemma filterMap_some_eq_filter (ts : Nat) (t : String) (es : List FeedEntity) :
    es.filterMap (entityFeature ts (some t)) =
      (es.filterMap (entityFeature ts none)).filter
        (fun f => f.properties.id == t || f.properties.route_id == t) := by
  induction es with
  | nil => rfl
  | cons e es ih =>
    rw [List.filterMap_cons, List.filterMap_cons, entityFeature_some_eq ts t e]
    cases hef : entityFeature ts none e with
    | none => simpa using ih
    | some f =>
      have hbind : (some f).bind
          (fun g =>
            if g.properties.id == t || g.properties.route_id == t then some g else none)
          = if f.properties.id == t || f.properties.route_id == t then some f else none := rfl
      rw [hbind, List.filter_cons]
      by_cases hp : (f.properties.id == t || f.properties.route_id == t) = true
      · rw [if_pos hp, if_pos hp]
        show f :: List.filterMap (entityFeature ts (some t)) es = _
        rw [ih]
      · rw [if_neg hp, if_neg hp]
        show List.filterMap (entityFeature ts (some t)) es = _
        exact ih

lemma filterMap_none_length (ts : Nat) (es : List FeedEntity) :
    (es.filterMap (entityFeature ts none)).length =
      (es.filter entityHasPosition).length := by
  induction es with
  | nil => rfl
  | cons e es ih =>
    rw [List.filterMap_cons, List.filter_cons]
    obtain ⟨eid, ev⟩ := e
    cases ev with
    | none => simpa [entityFeature, entityHasPosition] using ih
    | some v =>
      obtain ⟨vd, vt, vp⟩ := v
      cases vp with
      | none => simpa [entityFeature, entityHasPosition] using ih
      | some pos => simpa [entityFeature, entityHasPosition, passesFilter] using ih

lemma filterMap_length_le (ts : Nat) (target : Option String)
    (es : List FeedEntity) :
    (es.filterMap (entityFeature ts target)).length ≤
      (es.filter entityHasPosition).length := by
  induction es with
  | nil => exact Nat.le_refl 0
  | cons e es ih =>
    rw [List.filterMap_cons, List.filter_cons]
    cases hel : entityHasPosition e with
    | false =>
      rw [entityFeature_none_of_no_position ts target e hel]
      simpa [hel] using ih
    | true =>
      cases hef : entityFeature ts target e with
      | none =>
        simp only [hel, if_true, List.length_cons]
        exact Nat.le_succ_of_le ih
      | some f =>
        simp only [hel, if_true, List.length_cons]
        exact Nat.succ_le_succ ih

lemma mem_features_elim {feed : FeedMessage} {target : Option String}
    {f : Feature} (hf : f ∈ (convert_feed feed target).features) :
    ∃ e ∈ feed.entity, ∃ v pos, e.vehicle = some v ∧ v.position = some pos ∧
      f = makeFeature (feed.header.timestamp.getD 0) e v pos := by
  simp only [convert_feed, List.mem_filterMap] at hf
  obtain ⟨e, he, hfe⟩ := hf
  refine ⟨e, he, ?_⟩
  obtain ⟨eid, ev⟩ := e
  cases ev with
  | none => exact absurd hfe (by simp [entityFeature])
  | some v =>
    obtain ⟨vd, vt, vp⟩ := v
    cases vp with
    | none => exact absurd hfe (by simp [entityFeature])
    | some pos =>
      refine ⟨⟨vd, vt, some pos⟩, pos, rfl, rfl, ?_⟩
      have hfe2 : (if passesFilter target
            (bus_id_of ⟨eid, some ⟨vd, vt, some pos⟩⟩ ⟨vd, vt, some pos⟩)
            (route_id_of ⟨vd, vt, some pos⟩) = true
          then some (makeFeature (feed.header.timestamp.getD 0)
            ⟨eid, some ⟨vd, vt, some pos⟩⟩ ⟨vd, vt, some pos⟩ pos)
          else none) = some f := hfe
      by_cases hc : passesFilter target
          (bus_id_of ⟨eid, some ⟨vd, vt, some pos⟩⟩ ⟨vd, vt, some pos⟩)
          (route_id_of ⟨vd, vt, some pos⟩) = true
      · rw [if_pos hc] at hfe2
        exact (Option.some_inj.mp hfe2).symm
      · rw [if_neg hc] at hfe2
        exact absurd hfe2 (by simp)

/-! ## Concrete fixtures used by witnesses and counterexamples -/

/-- A position matching the spec example entity (whole-degree variant). -/
def wPos : Position := { latitude := 44, longitude := -63, bearing := some 90 }

def wVP : VehiclePosition :=
  { vehicle := some { id := some "B42" }
    trip := some { route_id := some "R1" }
    position := some wPos }

def wEntity : FeedEntity := { id := "E1", vehicle := some wVP }

def wFeed : FeedMessage :=
  { header := { timestamp := some 1700000000 }, entity := [wEntity] }

def wFeature : Feature := makeFeature 1700000000 wEntity wVP wPos

/-- An entity whose position lacks a bearing, in a feed whose header lacks
a timestamp. -/
def wPosNoBearing : Position := { latitude := 10, longitude := 20, bearing := none }

def wVPBare : VehiclePosition :=
  { vehicle := none, trip := none, position := some wPosNoBearing }

def wEntityBare : FeedEntity := { id := "E9", vehicle := some wVPBare }

def wFeedBare : FeedMessage := { header := { timestamp := none }, entity := [wEntityBare] }

def wFeatureBare : Feature := makeFeature 0 wEntityBare wVPBare wPosNoBearing

/-- A decoder that always fails, standing for ParseFromString on a
malformed body. -/
def failingDecode : List Nat → Except Unit FeedMessage := fun _ => .error ()

/-- A decoder that always yields the example feed. -/
def wDecode : List Nat → Except Unit FeedMessage := fun _ => .ok wFeed

/-- An entity with no vehicle record, hence no position. -/
def wEntityNoPos : FeedEntity := { id := "E7", vehicle := none }

/-- A feed mixing a position-less entity with the example entity. -/
def wFeedMixed : FeedMessage :=
  { header := { timestamp := some 5 }, entity := [wEntityNoPos, wEntity] }

/-- An empty snapshot store. -/
def emptyStore : FileStore := fun _ => none

/-- Entity whose vehicle descriptor id is explicitly set to the empty
string: HasField is true while the value is empty. -/
def entityEmptyVid : FeedEntity :=
  { id := "E1"
    vehicle := some
      { vehicle := some { id := some "" }
        trip := some { route_id := some "R1" }
        position := some wPos } }

def feedEmptyVid : FeedMessage :=
  { header := { timestamp := some 100 }, entity := [entityEmptyVid] }

/-- Entity carrying a position but no trip record. -/
def entityNoTrip : FeedEntity :=
  { id := "E2"
    vehicle := some
      { vehicle := some { id := some "B7" }
        trip := none
        position := some wPos } }

def feedNoTrip : FeedMessage :=
  { header := { timestamp := some 5 }, entity := [entityNoTrip] }

/-! ## Claims -/

/-- C1 counterexample: when the HTTP fetch succeeds (status 200) but the
body fails to decode, fetch_and_convert_to_geojson propagates the decode
error to its caller instead of returning the empty FeatureCollection. -/
theorem C1_counterexample :
    fetch_and_convert_to_geojson failingDecode (.response 200 []) none
      = .error .decodeError ∧
    fetch_and_convert_to_geojson failingDecode (.response 200 []) none
      ≠ .ok empty_feature_collection := by
  refine ⟨rfl, fun h => ?_⟩
  rw [show fetch_and_convert_to_geojson failingDecode (.response 200 []) none
    = .error .decodeError from rfl] at h
  exact Except.noConfusion h

/-- C1 (amended): for every filter criterion, transport failures never
propagate: a RequestException, or an error HTTP status caught through
raise_for_status, yields the empty FeatureCollection. The operation does
raise, however, exactly when the fetch succeeds with a non-error status
and decoding the body fails, because only RequestException is caught. -/
theorem C1_amended_exception_behavior
    (decode : List Nat → Except Unit FeedMessage) (fetch : FetchResult)
    (target : Option String) :
    (fetch = .requestException →
      fetch_and_convert_to_geojson decode fetch target
        = .ok empty_feature_collection) ∧
    (∀ s c, fetch = .response s c → status_raises s = true →
      fetch_and_convert_to_geojson decode fetch target
        = .ok empty_feature_collection) ∧
    ((∃ err, fetch_and_convert_to_geojson decode fetch target = .error err) ↔
      ∃ s c, fetch = .response s c ∧ status_raises s = false ∧
        decode c = .error ()) := by
  cases fetch with
  | requestException =>
    refine ⟨fun _ => rfl, fun s c h _ => FetchResult.noConfusion h, ?_, ?_⟩
    · rintro ⟨err, herr⟩
      exact absurd herr (by simp [fetch_and_convert_to_geojson])
    · rintro ⟨s, c, hsc, -, -⟩
      exact FetchResult.noConfusion hsc
  | response s c =>
    have hred : fetch_and_convert_to_geojson decode (.response s c) target =
        if status_raises s = true then .ok empty_feature_collection
        else match decode c with
          | .error _ => .error .decodeError
          | .ok feed => .ok (convert_feed feed target) := rfl
    refine ⟨fun h => FetchResult.noConfusion h, ?_, ?_⟩
    · rintro s2 c2 hsc hraise
      injection hsc with h1 h2
      subst h1
      rw [hred, if_pos hraise]
    · rw [hred]
      by_cases hs : status_raises s = true
      · rw [if_pos hs]
        constructor
        · rintro ⟨err, herr⟩
          exact Except.noConfusion herr
        · rintro ⟨s2, c2, hsc, hraise, -⟩
          injection hsc with h1 h2
          subst h1
          rw [hs] at hraise
          exact Bool.noConfusion hraise
      · rw [if_neg hs]
        cases hdec : decode c with
        | error u =>
          refine ⟨fun _ => ⟨s, c, rfl, by simpa using hs, ?_⟩, fun _ => ⟨.decodeError, rfl⟩⟩
          cases u
          exact hdec
        | ok feed =>
          constructor
          · rintro ⟨err, herr⟩
            exact Except.noConfusion herr
          · rintro ⟨s2, c2, hsc, -, hdec2⟩
            injection hsc with h1 h2
            subst h1; subst h2
            rw [hdec] at hdec2
            exact Except.noConfusion hdec2

/-- C1 amended witness: at concrete inputs, a transport failure gives the
empty collection, an error HTTP status (503) gives the empty collection,
and a failing decode on a 200 response raises. -/
theorem C1_amended_exception_behavior_witness :
    fetch_and_convert_to_geojson failingDecode .requestException none
      = .ok empty_feature_collection ∧
    fetch_and_convert_to_geojson failingDecode (.response 503 []) none
      = .ok empty_feature_collection ∧
    ∃ err, fetch_and_convert_to_geojson failingDecode (.response 200 []) none
      = .error err := by
  refine ⟨(C1_amended_exception_behavior failingDecode .requestException none).1 rfl,
    (C1_amended_exception_behavior failingDecode (.response 503 []) none).2.1
      503 [] rfl (by decide), ?_⟩
  exact (C1_amended_exception_behavior failingDecode (.response 200 []) none).2.2.mpr
    ⟨200, [], rfl, rfl, rfl⟩

/-- C2: any transport failure, a RequestException from timeout or
connection error, or an error HTTP status raised by raise_for_status,
yields the empty FeatureCollection for every filter criterion, and no
error is propagated to the caller. -/
theorem C2_transport_failure_returns_empty
    (decode : List Nat → Except Unit FeedMessage) (target : Option String) :
    fetch_and_convert_to_geojson decode .requestException target
      = .ok empty_feature_collection ∧
    ∀ s c, status_raises s = true →
      fetch_and_convert_to_geojson decode (.response s c) target
        = .ok empty_feature_collection := by
  refine ⟨rfl, fun s c hs => ?_⟩
  have hred : fetch_and_convert_to_geojson decode (.response s c) target =
      if status_raises s = true then .ok empty_feature_collection
      else match decode c with
        | .error _ => .error .decodeError
        | .ok feed => .ok (convert_feed feed target) := rfl
  rw [hred, if_pos hs]

/-- C2 witness: concrete transport failure and concrete 503 status. -/
theorem C2_transport_failure_returns_empty_witness :
    fetch_and_convert_to_geojson wDecode .requestException (some "22")
      = .ok empty_feature_collection ∧
    fetch_and_convert_to_geojson wDecode (.response 503 []) (some "22")
      = .ok empty_feature_collection := by
  have h := C2_transport_failure_returns_empty wDecode (some "22")
  exact ⟨h.1, h.2 503 [] (by decide)⟩

/-- C3 counterexample: with the vehicle identifier set to the empty string,
the emitted feature id is the empty vehicle identifier, not the entity
identifier E1 that the set-and-non-empty fallback rule of the claim
requires, and it is empty. -/
theorem C3_counterexample :
    ∃ f ∈ (convert_feed feedEmptyVid none).features,
      f.properties.id = "" ∧ f.properties.id ≠ "E1" := by decide

/-- The amended effective-identifier rule, following the amended claim
words: the vehicle identifier whenever it is set, even when set to the
empty string, and the entity identifier otherwise. -/
def effective_id_amended (e : FeedEntity) (v : VehiclePosition) : String :=
  match v.vehicle with
  | some d => d.id.getD e.id
  | none => e.id

lemma bus_id_of_eq_amended (e : FeedEntity) (v : VehiclePosition) :
    bus_id_of e v = effective_id_amended e v := by
  obtain ⟨vd, vt, vp⟩ := v
  cases vd with
  | none => rfl
  | some d =>
    obtain ⟨di⟩ := d
    cases di with
    | none => rfl
    | some i => rfl

/-- C3 (amended): every emitted feature id equals the vehicle identifier of
its entity when that identifier is set, even when set to the empty string,
and the entity identifier otherwise; the id is non-empty whenever the
entity identifiers and all set vehicle identifiers of the feed are
non-empty. -/
theorem C3_amended_effective_id (feed : FeedMessage) (target : Option String)
    (f : Feature) (hf : f ∈ (convert_feed feed target).features)
    (hids : ∀ e ∈ feed.entity, e.id ≠ "")
    (hvids : ∀ e ∈ feed.entity, ∀ v d, e.vehicle = some v →
      v.vehicle = some d → d.id ≠ some "") :
    (∃ e ∈ feed.entity, ∃ v, e.vehicle = some v ∧
      f.properties.id = effective_id_amended e v) ∧
    f.properties.id ≠ "" := by
  obtain ⟨e, he, v, pos, hv, hp, rfl⟩ := mem_features_elim hf
  have hid : (makeFeature (feed.header.timestamp.getD 0) e v pos).properties.id
      = bus_id_of e v := rfl
  constructor
  · exact ⟨e, he, v, hv, by rw [hid, bus_id_of_eq_amended]⟩
  · rw [hid]
    have hent : e.id ≠ "" := hids e he
    obtain ⟨vd, vt, vp⟩ := v
    cases vd with
    | none => exact hent
    | some d =>
      obtain ⟨di⟩ := d
      cases di with
      | none => exact hent
      | some i =>
        intro hii
        have hieq : i = "" := hii
        exact hvids e he ⟨some ⟨some i⟩, vt, vp⟩ ⟨some i⟩ hv rfl (by rw [hieq])

/-- C3 amended witness: the example feed satisfies the hypotheses and its
emitted feature carries the set vehicle identifier, which is non-empty. -/
theorem C3_amended_effective_id_witness :
    (∃ e ∈ wFeed.entity, ∃ v, e.vehicle = some v ∧
      wFeature.properties.id = effective_id_amended e v) ∧
    wFeature.properties.id ≠ "" := by
  refine C3_amended_effective_id wFeed none wFeature (by decide) (by decide) ?_
  intro e he v d hv hd
  have he2 : e = wEntity := by simpa [wFeed] using he
  subst he2
  have hv2 : wVP = v := Option.some_inj.mp hv
  subst hv2
  have hd2 : (⟨some "B42"⟩ : VehicleDescriptor) = d := Option.some_inj.mp hd
  subst hd2
  decide

/-- C4 counterexample: for an entity with no trip record, the emitted
route identifier is the sentinel N/A, not the string unavailable that the
claim names. -/
theorem C4_counterexample :
    ∃ f ∈ (convert_feed feedNoTrip none).features,
      f.properties.route_id = "N/A" ∧ f.properties.route_id ≠ "unavailable" := by
  decide

/-- The amended route-identifier rule, following the amended claim words:
the trip route identifier whenever it is set, even when set to the empty
string, and the sentinel N/A otherwise. -/
def route_id_amended (v : VehiclePosition) : String :=
  match v.trip with
  | some t => t.route_id.getD "N/A"
  | none => "N/A"

lemma route_id_of_eq_amended (v : VehiclePosition) :
    route_id_of v = route_id_amended v := by
  obtain ⟨vd, vt, vp⟩ := v
  cases vt with
  | none => rfl
  | some t =>
    obtain ⟨tr⟩ := t
    cases tr with
    | none => rfl
    | some r => rfl

/-- C4 (amended): every emitted feature carries a route identifier equal to
the trip route identifier of its entity when that identifier is set, even
when set to the empty string, and the sentinel string N/A otherwise. -/
theorem C4_amended_route_id (feed : FeedMessage) (target : Option String)
    (f : Feature) (hf : f ∈ (convert_feed feed target).features) :
    ∃ e ∈ feed.entity, ∃ v, e.vehicle = some v ∧
      f.properties.route_id = route_id_amended v := by
  obtain ⟨e, he, v, pos, hv, hp, rfl⟩ := mem_features_elim hf
  exact ⟨e, he, v, hv, route_id_of_eq_amended v⟩

/-- C4 amended witness: the example feed has a set route identifier R1 and
its feature carries it. -/
theorem C4_amended_route_id_witness :
    ∃ e ∈ wFeed.entity, ∃ v, e.vehicle = some v ∧
      wFeature.properties.route_id = route_id_amended v :=
  C4_amended_route_id wFeed none wFeature (by decide)

/-- C5: filtering is exact-match OR semantics: with criterion C the output
equals the criterion-free output filtered by exact string equality of the
effective identifier or the route identifier with C, in order, with no
false positives or negatives; with no criterion every eligible entity
contributes a feature. -/
theorem C5_filter_or_semantics (feed : FeedMessage) (C : String) :
    (convert_feed feed (some C)).features =
      (convert_feed feed none).features.filter
        (fun f => f.properties.id == C || f.properties.route_id == C) ∧
    (convert_feed feed none).features.length =
      (feed.entity.filter entityHasPosition).length :=
  ⟨filterMap_some_eq_filter _ C feed.entity, filterMap_none_length _ feed.entity⟩

/-- C6: an entity lacking a position contributes no feature, and the
number of output features is at most the number of entities carrying a
position. -/
theorem C6_skip_entities_without_position (feed : FeedMessage)
    (target : Option String) :
    (∀ e ∈ feed.entity, entityHasPosition e = false →
      entityFeature (feed.header.timestamp.getD 0) target e = none) ∧
    (convert_feed feed target).features.length ≤
      (feed.entity.filter entityHasPosition).length :=
  ⟨fun e _ he => entityFeature_none_of_no_position _ target e he,
    filterMap_length_le _ target feed.entity⟩

/-- C6 witness: in a feed mixing a position-less entity with the example
entity, the position-less entity contributes nothing and the output count
is bounded by the count of entities with a position. -/
theorem C6_skip_entities_without_position_witness :
    entityFeature 5 none wEntityNoPos = none ∧
    (convert_feed wFeedMixed none).features.length ≤
      (wFeedMixed.entity.filter entityHasPosition).length := by
  have h := C6_skip_entities_without_position wFeedMixed none
  exact ⟨h.1 wEntityNoPos (by decide) (by decide), h.2⟩

/-- C7: every emitted feature carries a Point geometry whose coordinates
list the longitude of the position of its entity first and the latitude
second. -/
theorem C7_coordinate_order (feed : FeedMessage) (target : Option String)
    (f : Feature) (hf : f ∈ (convert_feed feed target).features) :
    ∃ e ∈ feed.entity, ∃ v pos, e.vehicle = some v ∧ v.position = some pos ∧
      f.geometry.type = "Point" ∧
      f.geometry.coordinates = [pos.longitude, pos.latitude] := by
  obtain ⟨e, he, v, pos, hv, hp, rfl⟩ := mem_features_elim hf
  exact ⟨e, he, v, pos, hv, hp, rfl, rfl⟩

/-- C7 witness: the feature of the example feed, with longitude first. -/
theorem C7_coordinate_order_witness :
    ∃ e ∈ wFeed.entity, ∃ v pos, e.vehicle = some v ∧ v.position = some pos ∧
      wFeature.geometry.type = "Point" ∧
      wFeature.geometry.coordinates = [pos.longitude, pos.latitude] :=
  C7_coordinate_order wFeed none wFeature (by decide)

/-- C8: the snapshot write is idempotent: writing the same
FeatureCollection twice leaves the file with byte-identical content both
times, namely the deterministic json.dump serialization, because every
write fully overwrites the single snapshot path. -/
theorem C8_persist_idempotent (fs : FileStore) (g : FeatureCollection) :
    save_geojson (save_geojson fs g) g snapshot_path
      = save_geojson fs g snapshot_path ∧
    save_geojson fs g snapshot_path = some (json_dump g) := by
  constructor
  · simp [save_geojson, write_file]
  · simp [save_geojson, write_file]

/-- C9: a bus query parameter present but empty yields the empty-string
criterion, not an absent one: the endpoint filters with the empty string,
and an eligible feature is included exactly when its effective identifier
or its route identifier equals the empty string. -/
theorem C9_empty_bus_param (decode : List Nat → Except Unit FeedMessage)
    (s : Nat) (c : List Nat) (feed : FeedMessage) (fs : FileStore)
    (hs : status_raises s = false) (hdec : decode c = .ok feed) :
    (∃ resp fs2, get_geojson_data decode (.response s c) [("bus", "")] fs
        = .ok (resp, fs2) ∧ resp.body = convert_feed feed (some "")) ∧
    (convert_feed feed (some "")).features =
      (convert_feed feed none).features.filter
        (fun f => f.properties.id == "" || f.properties.route_id == "") := by
  constructor
  · have hfc : fetch_and_convert_to_geojson decode (.response s c) (some "")
        = .ok (convert_feed feed (some "")) := by
      have hred : fetch_and_convert_to_geojson decode (.response s c) (some "") =
          if status_raises s = true then .ok empty_feature_collection
          else match decode c with
            | .error _ => .error .decodeError
            | .ok feed => .ok (convert_feed feed (some "")) := rfl
      rw [hred, if_neg (by simp [hs]), hdec]
    have hend : get_geojson_data decode (.response s c) [("bus", "")] fs =
        match fetch_and_convert_to_geojson decode (.response s c) (some "") with
        | .error err => .error err
        | .ok geojson_data =>
          .ok ({ body := geojson_data, status := 200,
                 contentType := "application/json" },
               save_geojson fs geojson_data) := rfl
    refine ⟨{ body := convert_feed feed (some ""), status := 200,
              contentType := "application/json" },
            save_geojson fs (convert_feed feed (some "")), ?_, rfl⟩
    rw [hend, hfc]
  · exact filterMap_some_eq_filter _ "" feed.entity

/-- C9 witness: concrete 200 response decoding to the example feed; the
empty criterion excludes the example feature, whose identifiers are B42
and R1, while the absent criterion keeps it. -/
theorem C9_empty_bus_param_witness :
    (∃ resp fs2, get_geojson_data wDecode (.response 200 []) [("bus", "")] emptyStore
        = .ok (resp, fs2) ∧ resp.body = convert_feed wFeed (some "")) ∧
    (convert_feed wFeed (some "")).features =
      (convert_feed wFeed none).features.filter
        (fun f => f.properties.id == "" || f.properties.route_id == "") :=
  C9_empty_bus_param wDecode 200 [] wFeed emptyStore (by decide) rfl

/-- C10: both numeric properties are always present with proto2 defaults:
a feature from a feed whose header lacks a timestamp carries timestamp 0,
and a feature whose position lacks a bearing carries bearing 0. -/
theorem C10_missing_numeric_defaults (feed : FeedMessage)
    (target : Option String) (f : Feature)
    (hf : f ∈ (convert_feed feed target).features) :
    (feed.header.timestamp = none → f.properties.timestamp = 0) ∧
    ∃ e ∈ feed.entity, ∃ v pos, e.vehicle = some v ∧ v.position = some pos ∧
      f.properties.bearing = pos.bearing.getD 0 ∧
      (pos.bearing = none → f.properties.bearing = 0) := by
  obtain ⟨e, he, v, pos, hv, hp, rfl⟩ := mem_features_elim hf
  constructor
  · intro hts
    show feed.header.timestamp.getD 0 = 0
    rw [hts]
    rfl
  · refine ⟨e, he, v, pos, hv, hp, rfl, fun hb => ?_⟩
    show pos.bearing.getD 0 = 0
    rw [hb]
    rfl

/-- C10 witness: a feed with no header timestamp and a position with no
bearing yields a feature carrying timestamp 0 and bearing 0. -/
theorem C10_missing_numeric_defaults_witness :
    wFeatureBare.properties.timestamp = 0 ∧
    wFeatureBare.properties.bearing = 0 :=
  ⟨(C10_missing_numeric_defaults wFeedBare none wFeatureBare (by decide)).1 rfl,
   by decide⟩

end BusTracker
